import Mathlib

/-!
Verification of the pyCycle two-spool geared turbofan assembly
(`Baseline_Engine/baseline_engine.py` and `example_cycles/hbtf.py`).

The two cycle classes are shallowly embedded as configuration data:
the subsystem lists, the balance registrations made in `setup`, the
`connect` / `pyc_connect_flow` wiring and the balance input promotions,
all as they appear in the source, split by the `design` mode flag.
Numeric solver options are embedded exactly.  The external collaborators
(OpenMDAO's Newton solver, BalanceComp value clamping, pycycle's
Splitter) are modelled from the spec where a claim needs their
semantics; those definitions carry a `Modelled from the spec:` note.
-/

/-- One `add_balance` registration: the keyword arguments that appear at
the call site in the source (`none` when the argument is not passed). -/
structure BalanceSpec where
  name : String
  units : Option String
  eqUnits : Option String
  val : Option ℚ
  lower : Option ℚ
  upper : Option ℚ
  useMult : Bool
  multVal : Option ℚ
  rhsVal : Option ℚ
  resRef : Option ℚ
deriving DecidableEq, Repr

/-- A balance registration together with the object it was invoked on:
`"balance"` for `balance.add_balance(...)`, `"self"` for the stray
`self.add_balance(...)` call in the off-design branch of
`baseline_engine.setup`. -/
structure BalanceReg where
  receiver : String
  spec : BalanceSpec
deriving DecidableEq, Repr

/-- Balance registrations of `baseline_engine.setup`, in source order,
for the given `design` flag. -/
def baselineBalanceRegs (design : Bool) : List BalanceReg :=
  if design then
    [⟨"balance", ⟨"W", some "lbm/s", some "inch**2", none, none, none, false, none, none, none⟩⟩,
     ⟨"balance", ⟨"BPR", none, some "inch**2", none, none, none, false, none, none, none⟩⟩,
     ⟨"balance", ⟨"fan_PR", none, none, none, none, none, false, none, none, none⟩⟩,
     ⟨"balance", ⟨"lpc_PR", none, none, none, none, none, false, none, none, none⟩⟩,
     ⟨"balance", ⟨"lpt_PR", none, some "hp", none, none, none, false, none, some 0, some 10000⟩⟩,
     ⟨"balance", ⟨"hpt_PR", none, some "hp", none, none, none, false, none, some 0, some 10000⟩⟩,
     ⟨"balance", ⟨"FAR", none, some "degR", none, none, none, false, none, none, none⟩⟩]
  else
    [⟨"balance", ⟨"lp_Nmech", some "rpm", some "hp", some (3/2), some 500, none, true, some (-1), none, none⟩⟩,
     ⟨"self", ⟨"hp_Nmech", some "rpm", some "hp", some (3/2), some 500, none, true, some (-1), none, none⟩⟩,
     ⟨"balance", ⟨"W", some "lbm/s", some "lbf", none, none, none, false, none, none, none⟩⟩]

/-- Balance registrations of `HBTFRef.setup`, in source order, for the
given `design` flag. -/
def hbtfBalanceRegs (design : Bool) : List BalanceReg :=
  if design then
    [⟨"balance", ⟨"W", some "lbm/s", some "lbf", none, none, none, false, none, none, none⟩⟩,
     ⟨"balance", ⟨"FAR", none, some "degR", some (17/1000), some (1/10000), none, false, none, none, none⟩⟩,
     ⟨"balance", ⟨"lpt_PR", none, some "hp", some (3/2), some (1001/1000), some 8, true, some (-1), none, none⟩⟩,
     ⟨"balance", ⟨"hpt_PR", none, some "hp", some (3/2), some (1001/1000), some 8, true, some (-1), none, none⟩⟩]
  else
    [⟨"balance", ⟨"W", some "lbm/s", some "inch**2", none, some 10, some 1000, false, none, none, none⟩⟩,
     ⟨"balance", ⟨"BPR", none, some "inch**2", none, some 2, some 10, false, none, none, none⟩⟩]

/-- Non-flow `self.connect` wiring of `baseline_engine.setup` (a
multi-target connect is flattened into one pair per target), for the
given `design` flag. -/
def baselineConnects (design : Bool) : List (String × String) :=
  [("inlet.Fl_O:tot:P", "performance.Pt2"),
   ("hp_compressor.Fl_O:tot:P", "performance.Pt3"),
   ("burner.Wfuel", "performance.Wfuel_0"),
   ("inlet.F_ram", "performance.ram_drag"),
   ("core_nozzle.Fg", "performance.Fg_0"),
   ("bypass_nozzle.Fg", "performance.Fg_1"),
   ("fan_gearbox.trq_out", "fan_shaft.trq_1"),
   ("fan_gearbox.trq_in", "lp_shaft.trq_0"),
   ("fan.trq", "fan_shaft.trq_0"),
   ("lp_compressor.trq", "lp_shaft.trq_1"),
   ("lp_turbine.trq", "lp_shaft.trq_2"),
   ("hp_compressor.trq", "hp_shaft.trq_0"),
   ("hp_turbine.trq", "hp_shaft.trq_1"),
   ("bypass_nozzle.Fl_O:stat:V", "ideal_jet_velocity_ratio.v18"),
   ("core_nozzle.Fl_O:stat:V", "ideal_jet_velocity_ratio.v8")]
  ++
  (if design then
    [("balance.W", "flight_cond.W"),
     ("core_nozzle.Throat:stat:area", "balance.lhs:W"),
     ("balance.BPR", "splitter.BPR"),
     ("bypass_nozzle.Throat:stat:area", "balance.lhs:BPR"),
     ("balance.fan_PR", "fan.PR"),
     ("balance.fan_PR", "opr_comp.F_PR"),
     ("ideal_jet_velocity_ratio.vr_id", "balance.lhs:fan_PR"),
     ("balance.lpc_PR", "lp_compressor.PR"),
     ("balance.lpc_PR", "opr_comp.LPC_PR"),
     ("opr_comp.OPR", "balance.lhs:lpc_PR"),
     ("balance.lpt_PR", "lp_turbine.PR"),
     ("lp_shaft.pwr_net", "balance.lhs:lpt_PR"),
     ("balance.hpt_PR", "hp_turbine.PR"),
     ("hp_shaft.pwr_net", "balance.lhs:hpt_PR"),
     ("balance.FAR", "burner.Fl_I:FAR"),
     ("burner.Fl_O:tot:T", "balance.lhs:FAR")]
  else
    [("balance.lp_Nmech", "LP_Nmech"),
     ("lp_shaft.pwr_in_real", "balance.lhs:lp_Nmech"),
     ("lp_shaft.pwr_out_real", "balance.rhs:lp_Nmech"),
     ("balance.hp_Nmech", "hp_Nmech"),
     ("hp_shaft.pwr_in_real", "balance.lhs:hp_Nmech"),
     ("hp_shaft.pwr_out_real", "balance.rhs:hp_Nmech"),
     ("balance.W", "flight_cond.W"),
     ("performance.Fn", "balance.lhs:W")])
  ++
  [("flight_cond.Fl_O:stat:P", "core_nozzle.Ps_exhaust"),
   ("flight_cond.Fl_O:stat:P", "bypass_nozzle.Ps_exhaust")]

/-- `self.promotes('balance', inputs=[...])` aliases declared in
`baseline_engine.setup`: balance-internal input name paired with the
promoted name, per `design` flag. -/
def baselinePromotes (design : Bool) : List (String × String) :=
  if design then
    [("rhs:W", "geometry.core_nozz_exit"),
     ("rhs:BPR", "geometry.byp_nozz_exit"),
     ("rhs:fan_PR", "vr_id_REQUIREMENT"),
     ("rhs:lpc_PR", "OPR_REQUIREMENT"),
     ("rhs:FAR", "T4_REQUIREMENT")]
  else
    [("rhs:W", "Fn_REQUIREMENT")]

/-- `pyc_connect_flow` wiring of `baseline_engine.setup` (identical in
both modes). -/
def baselineFlowConnects : List (String × String) :=
  [("flight_cond.Fl_O", "inlet.Fl_I"),
   ("inlet.Fl_O", "fan.Fl_I"),
   ("fan.Fl_O", "splitter.Fl_I"),
   ("splitter.Fl_O1", "duct_lpc_inlet.Fl_I"),
   ("duct_lpc_inlet.Fl_O", "lp_compressor.Fl_I"),
   ("lp_compressor.Fl_O", "duct_hpc_inlet.Fl_I"),
   ("duct_hpc_inlet.Fl_O", "hp_compressor.Fl_I"),
   ("hp_compressor.Fl_O", "bleed_hpc_exit.Fl_I"),
   ("bleed_hpc_exit.Fl_O", "burner.Fl_I"),
   ("burner.Fl_O", "hp_turbine.Fl_I"),
   ("hp_turbine.Fl_O", "duct_lpt_inlet.Fl_I"),
   ("duct_lpt_inlet.Fl_O", "lp_turbine.Fl_I"),
   ("lp_turbine.Fl_O", "duct_core_outlet.Fl_I"),
   ("duct_core_outlet.Fl_O", "core_nozzle.Fl_I"),
   ("bleed_hpc_exit.hpt_vanes_cool", "hp_turbine.hpt_vanes"),
   ("bleed_hpc_exit.hpt_blades_cool", "hp_turbine.hpt_blades"),
   ("hp_compressor.lpt_vanes_cool", "lp_turbine.lpt_vanes"),
   ("hp_compressor.lpt_blades_cool", "lp_turbine.lpt_blades"),
   ("splitter.Fl_O2", "duct_bp.Fl_I"),
   ("duct_bp.Fl_O", "bypass_nozzle.Fl_I")]

/-- Non-flow `self.connect` wiring of `HBTFRef.setup`, per `design`
flag. -/
def hbtfConnects (design : Bool) : List (String × String) :=
  [("fan.trq", "fan_shaft.trq_0"),
   ("lpc.trq", "lp_shaft.trq_1"),
   ("lpt.trq", "lp_shaft.trq_2"),
   ("hpc.trq", "hp_shaft.trq_0"),
   ("hpt.trq", "hp_shaft.trq_1"),
   ("inlet.Fl_O:tot:P", "perf.Pt2"),
   ("hpc.Fl_O:tot:P", "perf.Pt3"),
   ("burner.Wfuel", "perf.Wfuel_0"),
   ("inlet.F_ram", "perf.ram_drag"),
   ("core_nozz.Fg", "perf.Fg_0"),
   ("byp_nozz.Fg", "perf.Fg_1")]
  ++
  (if design then
    [("balance.W", "fc.W"),
     ("perf.Fn", "balance.lhs:W"),
     ("balance.FAR", "burner.Fl_I:FAR"),
     ("burner.Fl_O:tot:T", "balance.lhs:FAR"),
     ("balance.lpt_PR", "lpt.PR"),
     ("lp_shaft.pwr_in_real", "balance.lhs:lpt_PR"),
     ("lp_shaft.pwr_out_real", "balance.rhs:lpt_PR"),
     ("balance.hpt_PR", "hpt.PR"),
     ("hp_shaft.pwr_in_real", "balance.lhs:hpt_PR"),
     ("hp_shaft.pwr_out_real", "balance.rhs:hpt_PR")]
  else
    [("balance.W", "fc.W"),
     ("core_nozz.Throat:stat:area", "balance.lhs:W"),
     ("balance.BPR", "splitter.BPR"),
     ("byp_nozz.Throat:stat:area", "balance.lhs:BPR")])

/-- Balance input promotions of `HBTFRef.setup`, per `design` flag. -/
def hbtfPromotes (design : Bool) : List (String × String) :=
  if design then [("rhs:W", "Fn_DES"), ("rhs:FAR", "T4_MAX")] else []

/-- `pyc_connect_flow` wiring of `HBTFRef.setup` (identical in both
modes). -/
def hbtfFlowConnects : List (String × String) :=
  [("fc.Fl_O", "inlet.Fl_I"),
   ("inlet.Fl_O", "fan.Fl_I"),
   ("fan.Fl_O", "splitter.Fl_I"),
   ("splitter.Fl_O1", "duct4.Fl_I"),
   ("duct4.Fl_O", "lpc.Fl_I"),
   ("lpc.Fl_O", "duct6.Fl_I"),
   ("duct6.Fl_O", "hpc.Fl_I"),
   ("hpc.Fl_O", "bld3.Fl_I"),
   ("bld3.Fl_O", "burner.Fl_I"),
   ("burner.Fl_O", "hpt.Fl_I"),
   ("hpt.Fl_O", "duct11.Fl_I"),
   ("duct11.Fl_O", "lpt.Fl_I"),
   ("lpt.Fl_O", "duct13.Fl_I"),
   ("duct13.Fl_O", "core_nozz.Fl_I"),
   ("splitter.Fl_O2", "byp_bld.Fl_I"),
   ("byp_bld.Fl_O", "duct15.Fl_I"),
   ("duct15.Fl_O", "byp_nozz.Fl_I")]

/-- Subsystems added in `baseline_engine.setup`: name and pycycle (or
OpenMDAO) component kind, per `design` flag (the `geometry` ExecComp is
added only in design mode). -/
def baselineSubsystems (design : Bool) : List (String × String) :=
  [("flight_cond", "FlightConditions"),
   ("inlet", "Inlet"),
   ("fan", "Compressor"),
   ("splitter", "Splitter"),
   ("duct_lpc_inlet", "Duct"),
   ("duct_bp", "Duct"),
   ("lp_compressor", "Compressor"),
   ("duct_hpc_inlet", "Duct"),
   ("hp_compressor", "Compressor"),
   ("bleed_hpc_exit", "BleedOut"),
   ("burner", "Combustor"),
   ("hp_turbine", "Turbine"),
   ("duct_lpt_inlet", "Duct"),
   ("lp_turbine", "Turbine"),
   ("duct_core_outlet", "Duct"),
   ("core_nozzle", "Nozzle"),
   ("bypass_nozzle", "Nozzle"),
   ("lp_shaft", "Shaft"),
   ("fan_gearbox", "Gearbox"),
   ("fan_shaft", "Shaft"),
   ("hp_shaft", "Shaft"),
   ("performance", "Performance"),
   ("opr_comp", "ExecComp"),
   ("ideal_jet_velocity_ratio", "ExecComp"),
   ("balance", "BalanceComp")]
  ++ (if design then [("geometry", "ExecComp")] else [])

/-- Subsystems added in `HBTFRef.setup`: name and component kind
(mode-independent). -/
def hbtfSubsystems : List (String × String) :=
  [("fc", "FlightConditions"),
   ("inlet", "Inlet"),
   ("fan", "Compressor"),
   ("splitter", "Splitter"),
   ("duct4", "Duct"),
   ("lpc", "Compressor"),
   ("duct6", "Duct"),
   ("hpc", "Compressor"),
   ("bld3", "BleedOut"),
   ("burner", "Combustor"),
   ("hpt", "Turbine"),
   ("duct11", "Duct"),
   ("lpt", "Turbine"),
   ("duct13", "Duct"),
   ("core_nozz", "Nozzle"),
   ("byp_bld", "BleedOut"),
   ("duct15", "Duct"),
   ("byp_nozz", "Nozzle"),
   ("lp_shaft", "Shaft"),
   ("fan_shaft", "Shaft"),
   ("gearbox", "Gearbox"),
   ("hp_shaft", "Shaft"),
   ("perf", "Performance"),
   ("balance", "BalanceComp")]

/-- `bleed_names` lists passed at component construction in
`baseline_engine.setup` (components constructed without a `bleed_names`
argument, or with an empty one, map to `[]`). -/
def baselineBleedNames : List (String × List String) :=
  [("fan", []),
   ("lp_compressor", []),
   ("hp_compressor", ["lpt_vanes_cool", "lpt_blades_cool"]),
   ("bleed_hpc_exit", ["hpt_vanes_cool", "hpt_blades_cool"]),
   ("hp_turbine", ["hpt_vanes", "hpt_blades"]),
   ("lp_turbine", ["lpt_vanes", "lpt_blades"])]

/-- `bleed_names` lists passed at component construction in
`HBTFRef.setup`. -/
def hbtfBleedNames : List (String × List String) :=
  [("fan", []),
   ("lpc", []),
   ("hpc", []),
   ("bld3", ["cool3", "cool4"]),
   ("byp_bld", ["bypBld"]),
   ("hpt", []),
   ("lpt", [])]

/-- Values assigned by `set_val` in `baseline_engine.main` that the
claims refer to (name, value). -/
def baselineMainSetVals : List (String × ℚ) :=
  [("DESIGN.fan.PR", 137/100),
   ("DESIGN.lp_compressor.PR", 2586/1000),
   ("DESIGN.hp_compressor.PR", 15),
   ("DESIGN.opr_comp.HPC_PR", 15),
   ("DESIGN.OPR_REQUIREMENT", 50),
   ("DESIGN.vr_id_REQUIREMENT", 4/5)]

/-- The `opr_comp` ExecComp of `baseline_engine.setup`:
`OPR = F_PR * LPC_PR * HPC_PR`. -/
def opr_comp (F_PR LPC_PR HPC_PR : ℚ) : ℚ := F_PR * LPC_PR * HPC_PR

/-- The `ideal_jet_velocity_ratio` ExecComp of `baseline_engine.setup`:
`vr_id = v18 / v8`. -/
def ideal_jet_velocity_ratio (v18 v8 : ℚ) : ℚ := v18 / v8

/-- Newton / line-search options set in `setup` (identical numeric
values in both source variants). -/
structure NewtonOptions where
  atol : ℚ
  rtol : ℚ
  maxiter : ℕ
  lsMaxiter : ℕ
  lsRho : ℚ
deriving DecidableEq, Repr

/-- Solver options of `baseline_engine.setup`:
`atol=1e-8, rtol=1e-99, maxiter=50`, ArmijoGoldstein line search with
`maxiter=3, rho=0.75`. -/
def baselineNewtonOptions : NewtonOptions :=
  ⟨1 / 10 ^ 8, 1 / 10 ^ 99, 50, 3, 3/4⟩

/-- Solver options of `HBTFRef.setup` (same numbers). -/
def hbtfNewtonOptions : NewtonOptions :=
  ⟨1 / 10 ^ 8, 1 / 10 ^ 99, 50, 3, 3/4⟩

/-- `true` when the connection list contains the pair `(s, t)`. -/
def hasConn (conns : List (String × String)) (s t : String) : Bool :=
  conns.any (fun p => p.1 == s && p.2 == t)

example : ("balance.lpc_PR", "opr_comp.LPC_PR") ∈ baselineConnects true := by decide
example : hasConn (hbtfConnects false) "balance.BPR" "splitter.BPR" = true := by decide

/-- Modelled from the spec: the pycycle `Splitter` (not under `src/`)
"divides one inlet Flow State into two outlet Flow States by a
bypass-ratio parameter ... mass flow split by the ratio".  First
(core) outlet mass flow for inlet flow `W` and bypass ratio `BPR`. -/
def splitterW1 (W BPR : ℚ) : ℚ := W / (1 + BPR)

/-- Modelled from the spec: second (bypass) outlet mass flow of the
`Splitter`, so that the two outlets are in the ratio `BPR`. -/
def splitterW2 (W BPR : ℚ) : ℚ := W * BPR / (1 + BPR)

/-- One registered balance residual as seen by the solver at a given
evaluation: left-hand value, right-hand value, multiplier, and the
`res_ref` normalization scale. -/
structure ResidualEntry where
  lhs : ℚ
  rhs : ℚ
  mult : ℚ
  resRef : ℚ
deriving DecidableEq, Repr

/-- The normalized residual value `(lhs - mult * rhs) / res_ref`. -/
def residValue (e : ResidualEntry) : ℚ := (e.lhs - e.mult * e.rhs) / e.resRef

/-- Modelled from the spec: the solver's "norm of the residual vector",
taken here as the max-abs norm (every component's magnitude is bounded
by the norm, which is the only property the claims use). -/
def residNorm (v : List ResidualEntry) : ℚ :=
  v.foldr (fun e m => max |residValue e| m) 0

/-- Modelled from the spec: the Newton solver (not under `src/`)
declares `Converged` when the residual norm meets the absolute
tolerance or the relative tolerance against the initial residual norm;
the numeric tolerances come from the source's solver settings. -/
def newtonConverged (o : NewtonOptions) (cur init : List ResidualEntry) : Bool :=
  decide (residNorm cur ≤ o.atol) || decide (residNorm cur ≤ o.rtol * residNorm init)

/-- Outcome of one backtracking line search. -/
inductive LsOutcome
  | accepted (step : ℚ)
  | exhausted
deriving DecidableEq, Repr

/-- Modelled from the spec: the damped line search (not under `src/`)
treats a failed graph evaluation as an infinite residual, multiplies
the step by the backtracking factor `rho` on each retry, and gives up
when its sub-step budget is exhausted.  `failing a = true` means the
graph evaluation at step length `a` fails (collaborator range
violation or singular Jacobian). -/
def lineSearchRun (failing : ℚ → Bool) (rho : ℚ) : ℕ → ℚ → LsOutcome
  | 0, _ => .exhausted
  | n + 1, alpha =>
      if failing alpha then lineSearchRun failing rho n (rho * alpha) else .accepted alpha

/-- The step lengths the line search tries, in order, given budget `n`. -/
def lsTrialSteps (rho alpha : ℚ) : ℕ → List ℚ
  | 0 => []
  | n + 1 => alpha :: lsTrialSteps rho (rho * alpha) n

/-- Terminal / intermediate solver states from the spec's state
machine. -/
inductive SolverState
  | Evaluating
  | Converged
  | Diverged
deriving DecidableEq, Repr

/-- Modelled from the spec: when every damped sub-step of an iteration
fails to evaluate and the sub-step budget runs out, the solver reports
the terminal `Diverged` result (it does not abort). -/
def stepAfterFailedEval (failing : ℚ → Bool) (o : NewtonOptions) (alpha : ℚ) : SolverState :=
  match lineSearchRun failing o.lsRho o.lsMaxiter alpha with
  | .exhausted => .Diverged
  | .accepted _ => .Evaluating

/-- Modelled from the spec: `set_unknowns` respects declared bounds,
"clamped, not wrapped": a value below a declared lower bound is set to
the lower bound, above a declared upper bound to the upper bound. -/
def clampToBounds (lo hi : Option ℚ) (x : ℚ) : ℚ :=
  let y := match lo with
    | some l => max l x
    | none => x
  match hi with
  | some h => min h y
  | none => y

/-- Modelled from the spec: the value of one balance unknown along a
solve — each iteration proposes an arbitrary update of the current
value and the solver writes it back clamped to the declared bounds. -/
def solveTrajectory (lo hi : Option ℚ) (update : ℕ → ℚ → ℚ) : ℕ → ℚ → ℚ
  | 0, x => x
  | n + 1, x => clampToBounds lo hi (update n (solveTrajectory lo hi update n x))

/-- `true` when `x` is within the declared bounds (an absent bound is
unconstrained). -/
def inBoundsB (lo hi : Option ℚ) (x : ℚ) : Bool :=
  (match lo with
    | some l => decide (l ≤ x)
    | none => true)
  &&
  (match hi with
    | some h => decide (x ≤ h)
    | none => true)

/-- `true` when the declared bounds are consistent (lower ≤ upper
whenever both are present). -/
def boundsOk (lo hi : Option ℚ) : Bool :=
  match lo, hi with
  | some l, some h => decide (l ≤ h)
  | _, _ => true

/-- Modelled from the spec: the `Shaft` (not under `src/`) "accumulates
net power ... across every component mounted on it"; with the real
input power and the (signed, negative) real output power its net power
output is their sum. -/
def shaftPwrNet (pwrIn pwrOut : ℚ) : ℚ := pwrIn + pwrOut

/-- `true` when some balance registered on the balance component has
its residual left-hand side fed from a power output of `shaft` and its
unknown output driving `turb`'s pressure-ratio input, in a form whose
zero-residual condition is zero net shaft power: either the source's
design style (`lhs = pwr_net`, explicit `rhs_val=0`, no multiplier) or
the `use_mult`/`mult_val=-1` style
(`lhs = pwr_in_real`, `rhs = pwr_out_real`). -/
def drivesShaftPowerViaTurbinePR (conns : List (String × String))
    (regs : List BalanceReg) (shaft turb : String) : Bool :=
  regs.any (fun r =>
    r.receiver == "balance"
    && hasConn conns ("balance." ++ r.spec.name) (turb ++ ".PR")
    && ((hasConn conns (shaft ++ ".pwr_net") ("balance.lhs:" ++ r.spec.name)
          && r.spec.rhsVal == some 0 && r.spec.useMult == false)
        ||
        (hasConn conns (shaft ++ ".pwr_in_real") ("balance.lhs:" ++ r.spec.name)
          && hasConn conns (shaft ++ ".pwr_out_real") ("balance.rhs:" ++ r.spec.name)
          && r.spec.useMult == true && r.spec.multVal == some (-1))))

/-- `true` when some registered balance takes its residual left-hand
side from any power output of `shaft`. -/
def somePowerBalanceOnShaft (conns : List (String × String))
    (regs : List BalanceReg) (shaft : String) : Bool :=
  regs.any (fun r =>
    hasConn conns (shaft ++ ".pwr_net") ("balance.lhs:" ++ r.spec.name)
    || hasConn conns (shaft ++ ".pwr_in_real") ("balance.lhs:" ++ r.spec.name)
    || hasConn conns (shaft ++ ".pwr_out_real") ("balance.lhs:" ++ r.spec.name))

/-- `true` when `turb.trq` is wired into one of the torque ports of
`shaft`. -/
def turbineOnShaft (conns : List (String × String)) (turb shaft : String) : Bool :=
  hasConn conns (turb ++ ".trq") (shaft ++ ".trq_0")
  || hasConn conns (turb ++ ".trq") (shaft ++ ".trq_1")
  || hasConn conns (turb ++ ".trq") (shaft ++ ".trq_2")

/-- One statement of the off-design branch of `baseline_engine.setup`,
in source order: a balance registration with its receiver, or a
`connect`. -/
inductive SetupStep
  | addBalanceOn (receiver : String) (balName : String)
  | connect (src tgt : String)
deriving DecidableEq, Repr

/-- The off-design (`design=False`) branch of `baseline_engine.setup`,
lines 189-211, statement by statement. -/
def baselineOdSetupSteps : List SetupStep :=
  [.addBalanceOn "balance" "lp_Nmech",
   .connect "balance.lp_Nmech" "LP_Nmech",
   .connect "lp_shaft.pwr_in_real" "balance.lhs:lp_Nmech",
   .connect "lp_shaft.pwr_out_real" "balance.rhs:lp_Nmech",
   .addBalanceOn "self" "hp_Nmech",
   .connect "balance.hp_Nmech" "hp_Nmech",
   .connect "hp_shaft.pwr_in_real" "balance.lhs:hp_Nmech",
   .connect "hp_shaft.pwr_out_real" "balance.rhs:hp_Nmech",
   .addBalanceOn "balance" "W",
   .connect "balance.W" "flight_cond.W",
   .connect "performance.Fn" "balance.lhs:W"]

/-- The cycle-level promoted input names of `baseline_engine` relevant
to the off-design branch: the `promotes_inputs` aliases declared on the
subsystems (`LP_Nmech`, `HP_Nmech`, `Fan_Nmech`) and the promoted
balance right-hand side `Fn_REQUIREMENT`.  Note the lower-case
`hp_Nmech` is not among them. -/
def baselinePromotedInputNames : List String :=
  ["LP_Nmech", "HP_Nmech", "Fan_Nmech", "Fn_REQUIREMENT"]

/-- The balance input endpoints that exist after the registrations in
`steps` that were made on the balance component: `balance.lhs:n` and
`balance.rhs:n` for each such `n`. -/
def balanceInputTargets (steps : List SetupStep) : List String :=
  steps.foldr
    (fun s acc =>
      match s with
      | .addBalanceOn r n =>
          if r == "balance" then ("balance.lhs:" ++ n) :: ("balance.rhs:" ++ n) :: acc
          else acc
      | _ => acc)
    []

/-- All valid `connect` targets for the off-design branch: the promoted
cycle-level names, the one subsystem input it connects to
(`flight_cond.W`), and the balance inputs created by well-formed
registrations. -/
def baselineOdValidTargets : List String :=
  baselinePromotedInputNames ++ ["flight_cond.W"] ++ balanceInputTargets baselineOdSetupSteps

/-- Modelled from the spec: configuration errors — a residual/unknown
registered on an object that does not offer registration (only the
Balance Set offers `register`, spec §4.2), or a `connect` whose target
name was never declared (dangling port) — are detected at assembly
time, before any solve, and are fatal (spec §7(a)).  The checker
accepts a setup exactly when no statement has either defect. -/
def setupConfigOk (steps : List SetupStep) (validTargets : List String) : Bool :=
  steps.all (fun s =>
    match s with
    | .addBalanceOn r _ => r == "balance"
    | .connect _ tgt => validTargets.contains tgt)

/-- `true` when some connect reads a mass-flow output (or the mass-flow
input) of the splitter — used to state that mass conservation at the
splitter is not wired into any residual. -/
def splitterMassFlowConnected (conns : List (String × String)) : Bool :=
  conns.any (fun p =>
    p.1 == "splitter.Fl_O1:stat:W" || p.1 == "splitter.Fl_O2:stat:W"
      || p.1 == "splitter.Fl_I:stat:W")

/-- Every component of the residual vector is bounded in magnitude by
the residual norm. -/
theorem abs_residValue_le_residNorm (v : List ResidualEntry) (e : ResidualEntry)
    (he : e ∈ v) : |residValue e| ≤ residNorm v := by
  induction v with
  | nil => cases he
  | cons a t ih =>
      rcases List.mem_cons.mp he with h | h
      · subst h
        exact le_max_left _ _
      · exact le_trans (ih h) (le_max_right _ _)

/-- Clamping lands inside consistent bounds. -/
theorem clampToBounds_inBounds (lo hi : Option ℚ) (x : ℚ)
    (hok : boundsOk lo hi = true) :
    inBoundsB lo hi (clampToBounds lo hi x) = true := by
  cases lo with
  | none =>
      cases hi with
      | none => simp [inBoundsB, clampToBounds]
      | some h => simp [inBoundsB, clampToBounds, min_le_left]
  | some l =>
      cases hi with
      | none => simp [inBoundsB, clampToBounds, le_max_left]
      | some h =>
          have hlh : l ≤ h := by simpa [boundsOk] using hok
          simp only [inBoundsB, clampToBounds, Bool.and_eq_true, decide_eq_true_eq]
          exact ⟨le_min hlh (le_max_left _ _), min_le_left _ _⟩

/-- A value at or above a declared upper bound is clamped to that
bound. -/
theorem clampToBounds_at_upper (lo : Option ℚ) (h x : ℚ)
    (hok : boundsOk lo (some h) = true) (hx : h ≤ x) :
    clampToBounds lo (some h) x = h := by
  cases lo with
  | none => simp [clampToBounds, min_eq_left hx]
  | some l =>
      have hlh : l ≤ h := by simpa [boundsOk] using hok
      have hm : max l x = x := max_eq_right (le_trans hlh hx)
      simp [clampToBounds, hm, min_eq_left hx]

/-- A value at or below a declared lower bound is clamped to that
bound. -/
theorem clampToBounds_at_lower (hi : Option ℚ) (l x : ℚ)
    (hok : boundsOk (some l) hi = true) (hx : x ≤ l) :
    clampToBounds (some l) hi x = l := by
  cases hi with
  | none => simp [clampToBounds, max_eq_left hx]
  | some h =>
      have hlh : l ≤ h := by simpa [boundsOk] using hok
      simp [clampToBounds, max_eq_left hx, min_eq_right hlh]

/-- The solve trajectory of a bounds-clamped unknown never leaves
consistent declared bounds once started inside them. -/
theorem solveTrajectory_inBounds (lo hi : Option ℚ) (update : ℕ → ℚ → ℚ)
    (hok : boundsOk lo hi = true) (x0 : ℚ) (hx0 : inBoundsB lo hi x0 = true) :
    ∀ n, inBoundsB lo hi (solveTrajectory lo hi update n x0) = true
  | 0 => hx0
  | _ + 1 => clampToBounds_inBounds lo hi _ hok

/-- All balance registrations of both variants in both modes. -/
def allBalanceRegs : List BalanceReg :=
  baselineBalanceRegs true ++ baselineBalanceRegs false
    ++ hbtfBalanceRegs true ++ hbtfBalanceRegs false

/-- C1 (counterexample): the claim fails on the `HBTFRef` variant —
its design-mode balance set has no `BPR` unknown at all, and its `W`
residual matches net thrust (`perf.Fn`), not a nozzle throat area,
while its off-design balance set is the one that matches throat areas
and declares no shaft-speed unknown. -/
theorem C1_counterexample :
    (hbtfBalanceRegs true).map (fun r => r.spec.name) = ["W", "FAR", "lpt_PR", "hpt_PR"]
    ∧ ¬ ("BPR" ∈ (hbtfBalanceRegs true).map (fun r => r.spec.name))
    ∧ hasConn (hbtfConnects true) "perf.Fn" "balance.lhs:W" = true
    ∧ hasConn (hbtfConnects true) "core_nozz.Throat:stat:area" "balance.lhs:W" = false
    ∧ (hbtfBalanceRegs false).map (fun r => r.spec.name) = ["W", "BPR"]
    ∧ ¬ ("lp_Nmech" ∈ (hbtfBalanceRegs false).map (fun r => r.spec.name))
    ∧ ¬ ("hp_Nmech" ∈ (hbtfBalanceRegs false).map (fun r => r.spec.name)) := by
  decide

/-- C1 (amended): in the `baseline_engine` variant, design mode
declares `W` and `BPR` with residuals matching the computed core and
bypass nozzle throat areas against the fixed geometric exit areas, and
off-design mode declares the shaft speeds (against shaft power) and
`W` against a thrust target; the `HBTFRef` variant swaps this: its
design mode matches thrust with `W` (no `BPR`/area balance) and its
off-design mode matches the throat areas with `W` and `BPR` (no
shaft-speed balance). -/
theorem C1_theorem :
    (baselineBalanceRegs true).map (fun r => r.spec.name)
      = ["W", "BPR", "fan_PR", "lpc_PR", "lpt_PR", "hpt_PR", "FAR"]
    ∧ hasConn (baselineConnects true) "core_nozzle.Throat:stat:area" "balance.lhs:W" = true
    ∧ ("rhs:W", "geometry.core_nozz_exit") ∈ baselinePromotes true
    ∧ hasConn (baselineConnects true) "balance.W" "flight_cond.W" = true
    ∧ hasConn (baselineConnects true) "bypass_nozzle.Throat:stat:area" "balance.lhs:BPR" = true
    ∧ ("rhs:BPR", "geometry.byp_nozz_exit") ∈ baselinePromotes true
    ∧ hasConn (baselineConnects true) "balance.BPR" "splitter.BPR" = true
    ∧ ("geometry", "ExecComp") ∈ baselineSubsystems true
    ∧ (baselineBalanceRegs false).map (fun r => r.spec.name) = ["lp_Nmech", "hp_Nmech", "W"]
    ∧ hasConn (baselineConnects false) "balance.lp_Nmech" "LP_Nmech" = true
    ∧ hasConn (baselineConnects false) "performance.Fn" "balance.lhs:W" = true
    ∧ ("rhs:W", "Fn_REQUIREMENT") ∈ baselinePromotes false
    ∧ ¬ (("geometry", "ExecComp") ∈ baselineSubsystems false)
    ∧ (hbtfBalanceRegs true).map (fun r => r.spec.name) = ["W", "FAR", "lpt_PR", "hpt_PR"]
    ∧ hasConn (hbtfConnects true) "perf.Fn" "balance.lhs:W" = true
    ∧ ("rhs:W", "Fn_DES") ∈ hbtfPromotes true
    ∧ (hbtfBalanceRegs false).map (fun r => r.spec.name) = ["W", "BPR"]
    ∧ hasConn (hbtfConnects false) "core_nozz.Throat:stat:area" "balance.lhs:W" = true
    ∧ hasConn (hbtfConnects false) "byp_nozz.Throat:stat:area" "balance.lhs:BPR" = true
    ∧ hasConn (hbtfConnects false) "balance.BPR" "splitter.BPR" = true := by
  decide

/-- C3 (counterexample): the assembled cycles contain a third shaft,
`fan_shaft`, in both variants, and in design mode no registered
balance takes its residual from any power output of `fan_shaft` — so
not every shaft of the assembled cycle has a dedicated net-power
balance. -/
theorem C3_counterexample :
    ("fan_shaft", "Shaft") ∈ baselineSubsystems true
    ∧ somePowerBalanceOnShaft (baselineConnects true) (baselineBalanceRegs true)
        "fan_shaft" = false
    ∧ ("fan_shaft", "Shaft") ∈ hbtfSubsystems
    ∧ somePowerBalanceOnShaft (hbtfConnects true) (hbtfBalanceRegs true)
        "fan_shaft" = false := by
  decide

/-- C3 (amended): in design mode, for each of the LP and HP shafts (in
both variants) there is a dedicated balance residual that drives that
shaft's net power to zero by adjusting the pressure ratio of the
turbine mounted on that shaft; the fan shaft, coupled to the LP spool
through the gearbox, has no such balance.  Both residual styles in the
source mean zero net power: `pwr_net - 0` directly, and
`pwr_in_real - (-1) * pwr_out_real` which equals the net power. -/
theorem C3_theorem :
    drivesShaftPowerViaTurbinePR (baselineConnects true) (baselineBalanceRegs true)
      "lp_shaft" "lp_turbine" = true
    ∧ drivesShaftPowerViaTurbinePR (baselineConnects true) (baselineBalanceRegs true)
        "hp_shaft" "hp_turbine" = true
    ∧ turbineOnShaft (baselineConnects true) "lp_turbine" "lp_shaft" = true
    ∧ turbineOnShaft (baselineConnects true) "hp_turbine" "hp_shaft" = true
    ∧ drivesShaftPowerViaTurbinePR (hbtfConnects true) (hbtfBalanceRegs true)
        "lp_shaft" "lpt" = true
    ∧ drivesShaftPowerViaTurbinePR (hbtfConnects true) (hbtfBalanceRegs true)
        "hp_shaft" "hpt" = true
    ∧ turbineOnShaft (hbtfConnects true) "lpt" "lp_shaft" = true
    ∧ turbineOnShaft (hbtfConnects true) "hpt" "hp_shaft" = true
    ∧ (∀ pwrIn pwrOut : ℚ,
        (pwrIn - (-1) * pwrOut = 0 ↔ shaftPwrNet pwrIn pwrOut = 0)
        ∧ (shaftPwrNet pwrIn pwrOut - 0 = 0 ↔ shaftPwrNet pwrIn pwrOut = 0)) := by
  have hsem : ∀ pwrIn pwrOut : ℚ,
      (pwrIn - (-1) * pwrOut = 0 ↔ shaftPwrNet pwrIn pwrOut = 0)
      ∧ (shaftPwrNet pwrIn pwrOut - 0 = 0 ↔ shaftPwrNet pwrIn pwrOut = 0) := by
    intro pwrIn pwrOut
    unfold shaftPwrNet
    exact ⟨by constructor <;> (intro hz; linarith),
      by constructor <;> (intro hz; linarith)⟩
  refine ⟨?_, ?_, ?_, ?_, ?_, ?_, ?_, ?_, hsem⟩
  all_goals decide

/-- C5: for every inlet mass flow and every bypass ratio in (0, 1),
the two splitter outlet mass flows sum to the inlet mass flow exactly,
and in neither variant (either mode) is a splitter mass flow wired
into any residual — conservation is arithmetic, not a solved
balance. -/
theorem C5_theorem (W BPR : ℚ) (h1 : 0 < BPR) (h2 : BPR < 1) :
    splitterW1 W BPR + splitterW2 W BPR = W
    ∧ splitterMassFlowConnected (baselineConnects true) = false
    ∧ splitterMassFlowConnected (baselineConnects false) = false
    ∧ splitterMassFlowConnected (hbtfConnects true) = false
    ∧ splitterMassFlowConnected (hbtfConnects false) = false := by
  refine ⟨?_, ?_, ?_, ?_, ?_⟩
  · have hne : (1 : ℚ) + BPR ≠ 0 := by linarith
    unfold splitterW1 splitterW2
    field_simp
    ring
  all_goals decide

/-- C5 (witness): the conservation identity at W = 7, BPR = 1/2. -/
theorem C5_witness :
    splitterW1 7 (1/2) + splitterW2 7 (1/2) = 7
    ∧ splitterMassFlowConnected (baselineConnects true) = false
    ∧ splitterMassFlowConnected (baselineConnects false) = false
    ∧ splitterMassFlowConnected (hbtfConnects true) = false
    ∧ splitterMassFlowConnected (hbtfConnects false) = false :=
  C5_theorem 7 (1/2) (by norm_num) (by norm_num)

/-- C7: the `opr_comp` ExecComp output is the product of its fan, LPC
and HPC pressure-ratio inputs; the design balance `lpc_PR` feeds both
`lp_compressor.PR` and `opr_comp.LPC_PR`, takes its residual left-hand
side from `opr_comp.OPR` and its right-hand side from the promoted
`OPR_REQUIREMENT` (set to 50); the `fan_PR` balance likewise feeds
both `fan.PR` and `opr_comp.F_PR`, and the runner sets
`opr_comp.HPC_PR` and `hp_compressor.PR` to the same value 15. -/
theorem C7_theorem :
    (∀ F_PR LPC_PR HPC_PR : ℚ, opr_comp F_PR LPC_PR HPC_PR = F_PR * LPC_PR * HPC_PR)
    ∧ hasConn (baselineConnects true) "balance.fan_PR" "fan.PR" = true
    ∧ hasConn (baselineConnects true) "balance.fan_PR" "opr_comp.F_PR" = true
    ∧ hasConn (baselineConnects true) "balance.lpc_PR" "lp_compressor.PR" = true
    ∧ hasConn (baselineConnects true) "balance.lpc_PR" "opr_comp.LPC_PR" = true
    ∧ hasConn (baselineConnects true) "opr_comp.OPR" "balance.lhs:lpc_PR" = true
    ∧ ("rhs:lpc_PR", "OPR_REQUIREMENT") ∈ baselinePromotes true
    ∧ ("DESIGN.opr_comp.HPC_PR", (15 : ℚ)) ∈ baselineMainSetVals
    ∧ ("DESIGN.hp_compressor.PR", (15 : ℚ)) ∈ baselineMainSetVals
    ∧ ("DESIGN.OPR_REQUIREMENT", (50 : ℚ)) ∈ baselineMainSetVals :=
  ⟨fun _ _ _ => rfl, by decide⟩

/-- C8: in `baseline_engine`, in both modes, the only connections into
the two nozzles' exhaust static-pressure inputs come from the ambient
static pressure of the flight-condition component, and no balance
unknown output is wired into either `Ps_exhaust` input — the
complete-expansion closure is a direct connection, not a balance. -/
theorem C8_theorem :
    (baselineConnects true).filter
        (fun p => p.2 == "core_nozzle.Ps_exhaust" || p.2 == "bypass_nozzle.Ps_exhaust")
      = [("flight_cond.Fl_O:stat:P", "core_nozzle.Ps_exhaust"),
         ("flight_cond.Fl_O:stat:P", "bypass_nozzle.Ps_exhaust")]
    ∧ (baselineConnects false).filter
        (fun p => p.2 == "core_nozzle.Ps_exhaust" || p.2 == "bypass_nozzle.Ps_exhaust")
      = [("flight_cond.Fl_O:stat:P", "core_nozzle.Ps_exhaust"),
         ("flight_cond.Fl_O:stat:P", "bypass_nozzle.Ps_exhaust")]
    ∧ (baselineBalanceRegs true).all (fun r =>
        !hasConn (baselineConnects true) ("balance." ++ r.spec.name) "core_nozzle.Ps_exhaust"
        && !hasConn (baselineConnects true) ("balance." ++ r.spec.name) "bypass_nozzle.Ps_exhaust")
      = true
    ∧ (baselineBalanceRegs false).all (fun r =>
        !hasConn (baselineConnects false) ("balance." ++ r.spec.name) "core_nozzle.Ps_exhaust"
        && !hasConn (baselineConnects false) ("balance." ++ r.spec.name) "bypass_nozzle.Ps_exhaust")
      = true := by
  decide

/-- C9 (counterexample): `HBTFRef` does not declare bleed extraction
only at the HPC exit — its `byp_bld` BleedOut declares the bleed
`bypBld` and sits in the bypass stream (fed from `splitter.Fl_O2`),
not at the HPC exit. -/
theorem C9_counterexample :
    ("byp_bld", ["bypBld"]) ∈ hbtfBleedNames
    ∧ ("byp_bld", "BleedOut") ∈ hbtfSubsystems
    ∧ hasConn hbtfFlowConnects "hpc.Fl_O" "byp_bld.Fl_I" = false
    ∧ hasConn hbtfFlowConnects "splitter.Fl_O2" "byp_bld.Fl_I" = true := by
  decide

/-- C9 (amended): the two variants are not equivalent in bleed-flow
routing: `baseline_engine` extracts LPT-cooling bleed from inside the
HPC (bleed ports of the `hp_compressor` Compressor) and HPT-cooling
bleed at the HPC exit (`bleed_hpc_exit`, fed from the HPC outlet) and
connects all four bleeds to the corresponding turbines, while
`HBTFRef` declares core-stream bleed extraction only at the HPC exit
(`bld3`), has an additional bypass-stream bleed (`byp_bld`), and
connects no bleed to either turbine (both of its turbines declare no
bleed ports). -/
theorem C9_theorem :
    ("hp_compressor", "Compressor") ∈ baselineSubsystems true
    ∧ ("hp_compressor", ["lpt_vanes_cool", "lpt_blades_cool"]) ∈ baselineBleedNames
    ∧ ("bleed_hpc_exit", "BleedOut") ∈ baselineSubsystems true
    ∧ ("bleed_hpc_exit", ["hpt_vanes_cool", "hpt_blades_cool"]) ∈ baselineBleedNames
    ∧ hasConn baselineFlowConnects "hp_compressor.Fl_O" "bleed_hpc_exit.Fl_I" = true
    ∧ hasConn baselineFlowConnects "bleed_hpc_exit.hpt_vanes_cool" "hp_turbine.hpt_vanes" = true
    ∧ hasConn baselineFlowConnects "bleed_hpc_exit.hpt_blades_cool" "hp_turbine.hpt_blades" = true
    ∧ hasConn baselineFlowConnects "hp_compressor.lpt_vanes_cool" "lp_turbine.lpt_vanes" = true
    ∧ hasConn baselineFlowConnects "hp_compressor.lpt_blades_cool" "lp_turbine.lpt_blades" = true
    ∧ ("hpc", ([] : List String)) ∈ hbtfBleedNames
    ∧ ("bld3", ["cool3", "cool4"]) ∈ hbtfBleedNames
    ∧ hasConn hbtfFlowConnects "hpc.Fl_O" "bld3.Fl_I" = true
    ∧ ("byp_bld", ["bypBld"]) ∈ hbtfBleedNames
    ∧ hasConn hbtfFlowConnects "splitter.Fl_O2" "byp_bld.Fl_I" = true
    ∧ ("hpt", ([] : List String)) ∈ hbtfBleedNames
    ∧ ("lpt", ([] : List String)) ∈ hbtfBleedNames
    ∧ hbtfFlowConnects.filter
        (fun p => p.1 == "bld3.cool3" || p.1 == "bld3.cool4" || p.1 == "byp_bld.bypBld")
      = []
    ∧ baselineBleedNames ≠ hbtfBleedNames := by
  repeat' apply And.intro
  all_goals decide

/-- C10: the off-design branch of `baseline_engine.setup` fails the
assembly-time configuration check: it registers its second balance
unknown (`hp_Nmech`) on the cycle object itself instead of on the
balance component, and it connects `balance.hp_Nmech` to the name
`hp_Nmech`, which is never declared (the promoted shaft-speed input is
`HP_Nmech`) — so every off-design instantiation is rejected before any
solve. -/
theorem C10_theorem :
    setupConfigOk baselineOdSetupSteps baselineOdValidTargets = false
    ∧ SetupStep.addBalanceOn "self" "hp_Nmech" ∈ baselineOdSetupSteps
    ∧ SetupStep.connect "balance.hp_Nmech" "hp_Nmech" ∈ baselineOdSetupSteps
    ∧ ¬ ("hp_Nmech" ∈ baselineOdValidTargets)
    ∧ "HP_Nmech" ∈ baselinePromotedInputNames := by
  decide

/-- C2 (counterexample): with the source's tolerances
(`atol = 1e-8`, `rtol = 1e-99`) the relative criterion can bind: for a
current residual vector of norm 1 and an initial residual vector of
norm 10^100, the solver declares convergence although the absolute
tolerance is not met — so "Converged exactly when atol is met" is not
unconditional. -/
theorem C2_counterexample :
    newtonConverged baselineNewtonOptions
        [⟨1, 0, 1, 1⟩] [⟨10 ^ 100, 0, 1, 1⟩] = true
    ∧ ¬ (residNorm [(⟨1, 0, 1, 1⟩ : ResidualEntry)] ≤ baselineNewtonOptions.atol) := by
  have hn1 : residNorm [(⟨1, 0, 1, 1⟩ : ResidualEntry)] = 1 := by
    norm_num [residNorm, residValue, max_def]
  have hn2 : residNorm [(⟨10 ^ 100, 0, 1, 1⟩ : ResidualEntry)] = 10 ^ 100 := by
    norm_num [residNorm, residValue, max_def, abs_of_nonneg]
  constructor
  · unfold newtonConverged
    rw [hn1, hn2, Bool.or_eq_true]
    right
    rw [decide_eq_true_eq]
    norm_num [baselineNewtonOptions]
  · rw [hn1]
    norm_num [baselineNewtonOptions]

/-- C2 (amended): whenever the initial residual norm is at most
`atol / rtol = 10^91` (any physically attainable magnitude), the
relative tolerance never binds and the solver reaches `Converged`
exactly when the absolute tolerance `atol = 1e-8` is met; and at
`Converged` every registered balance residual simultaneously satisfies
`|lhs − rhs·mult| ≤ atol · res_ref`, its declared tolerance scale.
Both variants configure the same solver options. -/
theorem C2_theorem (cur init : List ResidualEntry)
    (h0 : residNorm init ≤ baselineNewtonOptions.atol / baselineNewtonOptions.rtol)
    (href : ∀ e ∈ cur, 0 < e.resRef) :
    (newtonConverged baselineNewtonOptions cur init = true ↔
      residNorm cur ≤ baselineNewtonOptions.atol)
    ∧ (newtonConverged baselineNewtonOptions cur init = true →
        ∀ e ∈ cur, |e.lhs - e.mult * e.rhs| ≤ baselineNewtonOptions.atol * e.resRef)
    ∧ hbtfNewtonOptions = baselineNewtonOptions := by
  have hrt : (0 : ℚ) < baselineNewtonOptions.rtol := by norm_num [baselineNewtonOptions]
  have key : newtonConverged baselineNewtonOptions cur init = true →
      residNorm cur ≤ baselineNewtonOptions.atol := by
    intro h
    unfold newtonConverged at h
    rcases Bool.or_eq_true_iff.mp h with h1 | h2
    · exact of_decide_eq_true h1
    · have hq := of_decide_eq_true h2
      calc residNorm cur
          ≤ baselineNewtonOptions.rtol * residNorm init := hq
        _ ≤ baselineNewtonOptions.rtol *
              (baselineNewtonOptions.atol / baselineNewtonOptions.rtol) :=
            mul_le_mul_of_nonneg_left h0 (le_of_lt hrt)
        _ = baselineNewtonOptions.atol := by field_simp
  refine ⟨⟨key, ?_⟩, ?_, rfl⟩
  · intro h
    unfold newtonConverged
    simp [h]
  · intro h e he
    have hn := key h
    have h2 : |residValue e| ≤ baselineNewtonOptions.atol :=
      le_trans (abs_residValue_le_residNorm cur e he) hn
    have hr := href e he
    rw [residValue, abs_div, abs_of_pos hr] at h2
    exact (div_le_iff₀ hr).mp h2

/-- C2 (witness): the amended statement instantiated at a one-residual
vector of norm 1e-9 with initial norm 5. -/
theorem C2_witness :
    (newtonConverged baselineNewtonOptions
        [⟨1 / 10 ^ 9, 0, 1, 1⟩] [⟨5, 0, 1, 1⟩] = true ↔
      residNorm [(⟨1 / 10 ^ 9, 0, 1, 1⟩ : ResidualEntry)] ≤ baselineNewtonOptions.atol)
    ∧ (newtonConverged baselineNewtonOptions
          [⟨1 / 10 ^ 9, 0, 1, 1⟩] [⟨5, 0, 1, 1⟩] = true →
        ∀ e ∈ [(⟨1 / 10 ^ 9, 0, 1, 1⟩ : ResidualEntry)],
          |e.lhs - e.mult * e.rhs| ≤ baselineNewtonOptions.atol * e.resRef)
    ∧ hbtfNewtonOptions = baselineNewtonOptions :=
  C2_theorem [⟨1 / 10 ^ 9, 0, 1, 1⟩] [⟨5, 0, 1, 1⟩]
    (by norm_num [residNorm, residValue, max_def, baselineNewtonOptions])
    (by
      intro e he
      rw [List.mem_singleton] at he
      subst he
      norm_num)

/-- C4 (counterexample): the source configures the line-search
backtracking factor `rho = 0.75`, so the retry does not halve the
step: with unit initial step and the configured sub-step budget of 3,
the trial steps are `[1, 3/4, 9/16]`, not the halving sequence
`[1, 1/2, 1/4]`. -/
theorem C4_counterexample :
    lsTrialSteps baselineNewtonOptions.lsRho 1 baselineNewtonOptions.lsMaxiter
      = [1, 3/4, 9/16]
    ∧ lsTrialSteps (1/2) 1 baselineNewtonOptions.lsMaxiter = [1, 1/2, 1/4]
    ∧ lsTrialSteps baselineNewtonOptions.lsRho 1 baselineNewtonOptions.lsMaxiter
        ≠ lsTrialSteps (1/2) 1 baselineNewtonOptions.lsMaxiter
    ∧ baselineNewtonOptions.lsRho ≠ 1/2 := by
  have h1 : lsTrialSteps baselineNewtonOptions.lsRho 1 baselineNewtonOptions.lsMaxiter
      = [1, 3/4, 9/16] := by
    show ([1, (3/4 : ℚ) * 1, (3/4 : ℚ) * ((3/4 : ℚ) * 1)] : List ℚ) = [1, 3/4, 9/16]
    norm_num
  have h2 : lsTrialSteps (1/2) 1 baselineNewtonOptions.lsMaxiter = [1, 1/2, 1/4] := by
    show ([1, (1/2 : ℚ) * 1, (1/2 : ℚ) * ((1/2 : ℚ) * 1)] : List ℚ) = [1, 1/2, 1/4]
    norm_num
  refine ⟨h1, h2, ?_, ?_⟩
  · rw [h1, h2]
    norm_num
  · show (3/4 : ℚ) ≠ 1/2
    norm_num

/-- C4 (amended): when every evaluation of the graph fails for the
proposed steps, the solver does not abort: the line search treats each
failure as an unusable step and multiplies the step by the configured
backtracking factor `rho = 0.75` (not one half) on each retry; once
the sub-step budget (line-search `maxiter = 3`) is exhausted it gives
up and the solver reports the terminal `Diverged` result. -/
theorem C4_theorem (failing : ℚ → Bool) (alpha : ℚ) (hfail : ∀ a, failing a = true) :
    lineSearchRun failing baselineNewtonOptions.lsRho baselineNewtonOptions.lsMaxiter
        alpha = LsOutcome.exhausted
    ∧ stepAfterFailedEval failing baselineNewtonOptions alpha = SolverState.Diverged
    ∧ lsTrialSteps baselineNewtonOptions.lsRho alpha baselineNewtonOptions.lsMaxiter
        = [alpha, (3/4) * alpha, (9/16) * alpha] := by
  have hrun : lineSearchRun failing baselineNewtonOptions.lsRho
      baselineNewtonOptions.lsMaxiter alpha = LsOutcome.exhausted := by
    show lineSearchRun failing (3/4) 3 alpha = LsOutcome.exhausted
    simp [lineSearchRun, hfail]
  refine ⟨hrun, ?_, ?_⟩
  · unfold stepAfterFailedEval
    rw [hrun]
  · have hq : (3/4 : ℚ) * ((3/4 : ℚ) * alpha) = (9/16) * alpha := by ring
    calc lsTrialSteps baselineNewtonOptions.lsRho alpha baselineNewtonOptions.lsMaxiter
        = [alpha, (3/4) * alpha, (3/4) * ((3/4) * alpha)] := rfl
      _ = [alpha, (3/4) * alpha, (9/16) * alpha] := by rw [hq]

/-- C4 (witness): the amended statement for an always-failing
evaluation at unit initial step. -/
theorem C4_witness :
    lineSearchRun (fun _ => true) baselineNewtonOptions.lsRho
        baselineNewtonOptions.lsMaxiter 1 = LsOutcome.exhausted
    ∧ stepAfterFailedEval (fun _ => true) baselineNewtonOptions 1 = SolverState.Diverged
    ∧ lsTrialSteps baselineNewtonOptions.lsRho 1 baselineNewtonOptions.lsMaxiter
        = [1, (3/4) * 1, (9/16) * 1] :=
  C4_theorem (fun _ => true) 1 (fun _ => rfl)

/-- C6: for every balance registration of either variant in either
mode, and every admissible (in-bounds) initial guess, the unknown's
value stays within its declared bounds at every step of the clamped
solve trajectory; and an update that would exceed a declared bound is
written back as exactly that bound (clamped, not wrapped). -/
theorem C6_theorem :
    (∀ r ∈ allBalanceRegs, ∀ (update : ℕ → ℚ → ℚ) (x0 : ℚ) (n : ℕ),
      inBoundsB r.spec.lower r.spec.upper x0 = true →
      inBoundsB r.spec.lower r.spec.upper
        (solveTrajectory r.spec.lower r.spec.upper update n x0) = true)
    ∧ (∀ r ∈ allBalanceRegs, ∀ x : ℚ,
        (∀ h, r.spec.upper = some h → h ≤ x →
          clampToBounds r.spec.lower r.spec.upper x = h)
        ∧ (∀ l, r.spec.lower = some l → x ≤ l →
            clampToBounds r.spec.lower r.spec.upper x = l)) := by
  have hall : ∀ r ∈ allBalanceRegs, boundsOk r.spec.lower r.spec.upper = true := by
    intro r hr
    fin_cases hr <;> norm_num [boundsOk]
  constructor
  · intro r hr update x0 n hx0
    exact solveTrajectory_inBounds _ _ update (hall r hr) x0 hx0 n
  · intro r hr x
    constructor
    · intro h hu hx
      have hok := hall r hr
      rw [hu] at hok ⊢
      exact clampToBounds_at_upper _ _ _ hok hx
    · intro l hl hx
      have hok := hall r hr
      rw [hl] at hok ⊢
      exact clampToBounds_at_lower _ _ _ hok hx

/-- C6 (witness): the invariant applied to the off-design `W` balance
of `HBTFRef` (bounds 10..1000), starting at 500 with an update that
overshoots the upper bound, and the clamp-at-bound behavior at the
same registration. -/
theorem C6_witness :
    inBoundsB (some 10) (some 1000)
      (solveTrajectory (some 10) (some 1000) (fun _ x => x + 10 ^ 6) 2 500) = true
    ∧ clampToBounds (some 10) (some 1000) 5000 = 1000 := by
  constructor
  · exact C6_theorem.1
      ⟨"balance", ⟨"W", some "lbm/s", some "inch**2", none, some 10, some 1000,
        false, none, none, none⟩⟩
      (by simp [allBalanceRegs, baselineBalanceRegs, hbtfBalanceRegs])
      (fun _ x => x + 10 ^ 6) 500 2 (by norm_num [inBoundsB])
  · exact (C6_theorem.2
      ⟨"balance", ⟨"W", some "lbm/s", some "inch**2", none, some 10, some 1000,
        false, none, none, none⟩⟩
      (by simp [allBalanceRegs, baselineBalanceRegs, hbtfBalanceRegs]) 5000).1 1000 rfl
      (by norm_num)
